import Mathlib

/-!
Verification of the backupify-cli backup orchestration pipeline.

The JavaScript module exporting `backup` is embedded shallowly: each stage
(connect, export, compress, upload, notify, release) is modelled as a pure
Lean function over an explicit environment `Env` that injects the outcome of
every external capability (driver handshake, mysqldump, postgres query,
mongo collection scan, archiver), an event trace `List Event` recording the
observable side effects in program order, and a filesystem modelled as an
association list from path to file content.  Async functions are embedded as
`Except`-valued functions: `.ok` is a resolved promise, `.error` a rejected
one; `try/catch/finally` becomes explicit case analysis mirroring the
source's control flow.
-/

namespace Backupify

/-- File contents: plain text, or a single-entry zip archive produced by the
archiver (entry name and entry content). -/
inductive Content where
  | text (s : String)
  | zipEntry (entryName : String) (entry : Content)
deriving Repr, DecidableEq

/-- The filesystem as a finite map from path to content. -/
abbrev FS := List (String × Content)

/-- Overwriting write, as `fs.writeFileSync` / `dumpToFile` behave: replaces
any previous content at the path. -/
def fsWrite (fs : FS) (p : String) (c : Content) : FS :=
  (p, c) :: fs.filter (fun kv => kv.1 != p)

/-- Read a path from the filesystem. -/
def fsRead (fs : FS) (p : String) : Option Content :=
  (fs.find? (fun kv => kv.1 == p)).map (fun kv => kv.2)

/-- The list of paths present on the filesystem. -/
def pathsOf (fs : FS) : List String := fs.map (fun kv => kv.1)

/-- Observable side effects of one run, in program order. -/
inductive Event where
  | logInfo (msg : String)
  | logError (msg : String)
  | notify (title message : String)
  | driverConnect (driver : String) (cfg : List (String × String))
  | mongoConnect (uri : String)
  | dumpInvoked (cfg : List (String × String)) (path : String)
  | queryIssued (q : String)
  | mongoDbSelect (dbname : String)
  | release (kind : String)
deriving Repr, DecidableEq

/-- Promise outcome of the whole `backup` call: resolved, or rejected with an
uncaught error. -/
inductive Outcome where
  | resolved
  | rejected (err : String)
deriving Repr, DecidableEq

/-- The configuration record destructured by `backup` (CLI option values are
strings; `port` is kept as the string commander delivers). -/
structure BackupRequest where
  db : String
  user : String
  password : String
  host : String
  port : String
  dbname : String
  «type» : String
  compress : Bool
  cloud : Bool
deriving Repr, DecidableEq

/-- Environment: outcome of every external capability the pipeline calls.
`none` for an error field means the capability succeeds. -/
structure Env where
  homeDir : String
  connectError : Option String
  dumpError : Option String
  dumpContent : String
  pgQueryError : Option String
  pgRows : List String
  mongoError : Option String
  mongoCollections : List (String × List String)
  compressError : Option String
deriving Repr, DecidableEq

/-- Look a key up in an association-list config; an absent key reads as the
empty string (modelling JavaScript `undefined` interpolating/forwarding). -/
def lookupD (cfg : List (String × String)) (k : String) : String :=
  ((cfg.find? (fun kv => kv.1 == k)).map (fun kv => kv.2)).getD ""

/-- The `dbConfig` object `backup` builds from its destructured parameters.
Note the key is `dbname`, not `database`. -/
def mkDbConfig (req : BackupRequest) : List (String × String) :=
  [("host", req.host), ("user", req.user), ("password", req.password),
   ("dbname", req.dbname), ("port", req.port)]

/-- The whitelist `validMySQLOptions` from `connectToDatabase`. -/
def validMySQLOptions : List String :=
  ["host", "user", "password", "database", "port"]

/-- The key-filtering reduce in `connectToDatabase`: keep only entries whose
key is whitelisted. -/
def filteredConfigOf (config : List (String × String)) : List (String × String) :=
  config.filter (fun kv => validMySQLOptions.contains kv.1)

/-- The mongodb connection URI, built by template-literal interpolation of
the raw parameter values. -/
def mongoUri (user password host port dbname : String) : String :=
  "mongodb://" ++ user ++ ":" ++ password ++ "@" ++ host ++ ":" ++ port ++
    "/" ++ dbname

/-- A live connection handle: the kind tag plus, for the relational drivers,
the configuration object the driver was created with (readable back as
`connection.config`). -/
structure Conn where
  kind : String
  cfg : List (String × String)
deriving Repr, DecidableEq

/-- Embedding of `connectToDatabase(dbType, config)`: returns the settled
promise plus the driver invocations it performed (each driver call counts as
network activity, whether or not the handshake then fails).  The `validConfig`
object is computed and, as in the source, never used. -/
def connectToDatabase (dbType : String) (config : List (String × String))
    (env : Env) : Except String Conn × List Event :=
  let validConfig : List (String × String) :=
    [("host", lookupD config "host"), ("user", lookupD config "user"),
     ("password", lookupD config "password"),
     ("database", lookupD config "dbname"), ("port", lookupD config "port")]
  let filteredConfig := filteredConfigOf config
  if dbType = "mysql" then
    ((match env.connectError with
      | some e => Except.error e
      | none => Except.ok ⟨"mysql", filteredConfig⟩),
     [Event.driverConnect "mysql" filteredConfig])
  else if dbType = "postgres" then
    ((match env.connectError with
      | some e => Except.error e
      | none => Except.ok ⟨"postgres", filteredConfig⟩),
     [Event.driverConnect "postgres" filteredConfig])
  else if dbType = "mongodb" then
    let uri := mongoUri (lookupD config "user") (lookupD config "password")
      (lookupD config "host") (lookupD config "port") (lookupD config "dbname")
    ((match env.connectError with
      | some e => Except.error e
      | none => Except.ok ⟨"mongodb", []⟩),
     [Event.mongoConnect uri])
  else
    (Except.error ("Unsupported database type: " ++ dbType), [])

/-- The fixed catalog query the postgres export strategy runs. -/
def catalogQuery : String :=
  "COPY (SELECT * FROM pg_catalog.pg_tables WHERE schemaname = \x27public\x27) TO STDOUT WITH CSV HEADER"

/-- Model of `error.stack`: a diagnostic trace derived from the message. -/
def stackOf (e : String) : String :=
  "Error: " ++ e ++ "\n    at createBackup"

/-- Model of `JSON.stringify(data)` for the mongodb export, where `data` is
the array of per-collection records (whitespace of the pretty-printer is
abstracted away). -/
def mongoStringify (colls : List (String × List String)) : String :=
  "[" ++ String.intercalate "," (colls.map (fun c =>
    "\x7b\"collection\":\"" ++ c.1 ++ "\",\"docs\":[" ++
      String.intercalate "," c.2 ++ "]\x7d")) ++ "]"

/-- The per-user Downloads directory resolved from `os.homedir()`. -/
def downloadsDir (env : Env) : String := env.homeDir ++ "/Downloads"

/-- The raw export path `path.join(downloadsDirectory, dbname + "-backup.sql")`. -/
def rawBackupPath (env : Env) (dbname : String) : String :=
  downloadsDir env ++ "/" ++ (dbname ++ "-backup.sql")

/-- The compressed artifact path `path.join(downloadsDirectory, dbname + "-backup.zip")`. -/
def zipBackupPath (env : Env) (dbname : String) : String :=
  downloadsDir env ++ "/" ++ (dbname ++ "-backup.zip")

/-- Embedding of `compressBackupFile(source, target)`: opening the write
stream truncates the target before the archiver reads the source; an archiver
error rejects the promise. -/
def compressBackupFile (sourceFilePath targetFilePath : String) (fs : FS)
    (env : Env) : Except (String × FS) FS :=
  let fsTrunc := fsWrite fs targetFilePath (Content.text "")
  match env.compressError with
  | some e => Except.error (e, fsTrunc)
  | none =>
    let entry := (fsRead fsTrunc sourceFilePath).getD (Content.text "")
    Except.ok (fsWrite fsTrunc targetFilePath
      (Content.zipEntry sourceFilePath entry))

/-- The body of `createBackup` up to its catch handler: an error value
carries the events and filesystem effects that happened before the throw. -/
def createBackupTry (dbType : String) (conn : Conn) (dbname : String)
    (compress cloud : Bool) (env : Env) (fs : FS) :
    Except (String × List Event × FS) (List Event × FS) :=
  let downloadsDirectory := downloadsDir env
  let backupFileName := dbname ++ "-backup.sql"
  let compressedFileName := dbname ++ "-backup.zip"
  let outputFilePath :=
    if compress then downloadsDirectory ++ "/" ++ compressedFileName
    else downloadsDirectory ++ "/" ++ backupFileName
  let step1 : Except (String × List Event × FS) (List Event × FS) :=
    if dbType = "mysql" then
      let mysqlConfig :=
        [("host", lookupD conn.cfg "host"), ("user", lookupD conn.cfg "user"),
         ("password", lookupD conn.cfg "password"), ("database", dbname),
         ("port", lookupD conn.cfg "port")]
      match env.dumpError with
      | some e => Except.error (e, [Event.dumpInvoked mysqlConfig outputFilePath], fs)
      | none => Except.ok
          ([Event.dumpInvoked mysqlConfig outputFilePath,
            Event.logInfo ("MySQL backup complete. File saved to: " ++ outputFilePath)],
           fsWrite fs outputFilePath (Content.text env.dumpContent))
    else if dbType = "postgres" then
      match env.pgQueryError with
      | some e => Except.error (e, [Event.queryIssued catalogQuery], fs)
      | none => Except.ok
          ([Event.queryIssued catalogQuery,
            Event.logInfo ("PostgreSQL backup complete. File saved to: " ++ outputFilePath)],
           fsWrite fs outputFilePath
             (Content.text (String.intercalate "\n" env.pgRows)))
    else if dbType = "mongodb" then
      match env.mongoError with
      | some e => Except.error (e, [Event.mongoDbSelect dbname], fs)
      | none => Except.ok
          ([Event.mongoDbSelect dbname,
            Event.logInfo ("MongoDB backup complete. File saved to: " ++ outputFilePath)],
           fsWrite fs outputFilePath
             (Content.text (mongoStringify env.mongoCollections)))
    else Except.ok ([], fs)
  match step1 with
  | Except.error r => Except.error r
  | Except.ok (evs1, fs1) =>
    let step2 : Except (String × List Event × FS) (List Event × FS) :=
      if compress then
        match compressBackupFile outputFilePath
            (downloadsDirectory ++ "/" ++ compressedFileName) fs1 env with
        | Except.error (e, fs2) => Except.error (e, evs1, fs2)
        | Except.ok fs2 => Except.ok
            (evs1 ++ [Event.logInfo ("Backup compressed to: " ++
              (downloadsDirectory ++ "/" ++ compressedFileName))], fs2)
      else Except.ok (evs1, fs1)
    match step2 with
    | Except.error r => Except.error r
    | Except.ok (evs2, fs2) =>
      let evs3 :=
        if cloud then
          evs2 ++ [Event.logInfo "Uploading to cloud storage",
            Event.logInfo ("Backup uploaded to the cloud: " ++ outputFilePath)]
        else evs2
      Except.ok (evs3 ++ [Event.logInfo "Backup process completed successfully."], fs2)

/-- Embedding of the async `createBackup`: its catch handler logs the message
and the stack, so the returned promise settles as `.ok` on either path. -/
def createBackup (dbType : String) (conn : Conn) (dbname : String)
    (compress cloud : Bool) (env : Env) (fs : FS) :
    Except String (List Event × FS) :=
  match createBackupTry dbType conn dbname compress cloud env fs with
  | Except.ok r => Except.ok r
  | Except.error (e, evs, fs1) => Except.ok
      (evs ++ [Event.logError ("Backup failed: " ++ e),
        Event.logError (stackOf e)], fs1)

/-- Result of one `backup` run: how the promise settled, the event trace, and
the final filesystem. -/
structure RunResult where
  outcome : Outcome
  trace : List Event
  fs : FS
deriving Repr, DecidableEq

/-- The finally block of `backup`: `connection.end()` / `connection.close()`
dispatched on the kind string.  When the connection was never assigned the
property access on `undefined` throws, and an exception escaping a finally
block replaces the function's outcome. -/
def runFinally (db : String) (conn : Option Conn) (evs : List Event)
    (fs : FS) : RunResult :=
  if db = "mysql" ∨ db = "postgres" then
    match conn with
    | none => ⟨Outcome.rejected
        "TypeError: Cannot read properties of undefined (reading \x27end\x27)",
        evs, fs⟩
    | some _ => ⟨Outcome.resolved, evs ++ [Event.release db], fs⟩
  else if db = "mongodb" then
    match conn with
    | none => ⟨Outcome.rejected
        "TypeError: Cannot read properties of undefined (reading \x27close\x27)",
        evs, fs⟩
    | some _ => ⟨Outcome.resolved, evs ++ [Event.release db], fs⟩
  else ⟨Outcome.resolved, evs, fs⟩

/-- Embedding of the orchestrating `backup` function: try (connect, log,
notify started, createBackup, notify completed) / catch (log error, notify
failed) / finally (release the connection). -/
def backup (req : BackupRequest) (env : Env) (fs0 : FS) : RunResult :=
  let dbConfig := mkDbConfig req
  match connectToDatabase req.db dbConfig env with
  | (Except.error e, evs) =>
    runFinally req.db none
      (evs ++ [Event.logError ("Error during backup process: " ++ e),
        Event.notify "Backup Failed"
          ("Backup failed for database " ++ req.dbname ++ ". Error: " ++ e)])
      fs0
  | (Except.ok conn, evs) =>
    let evs := evs ++ [Event.logInfo "Connected to the database",
      Event.notify "Backup Started"
        ("Starting backup for database " ++ req.dbname ++ ".")]
    match createBackup req.db conn req.dbname req.compress req.cloud env fs0 with
    | Except.ok (evs2, fs1) =>
      runFinally req.db (some conn)
        (evs ++ evs2 ++ [Event.notify "Backup Completed"
          ("Backup completed for database " ++ req.dbname ++ ".")])
        fs1
    | Except.error e =>
      runFinally req.db (some conn)
        (evs ++ [Event.logError ("Error during backup process: " ++ e),
          Event.notify "Backup Failed"
            ("Backup failed for database " ++ req.dbname ++ ". Error: " ++ e)])
        fs0

/-- Titles of the desktop notifications emitted during a trace, in order. -/
def notifTitles (evs : List Event) : List String :=
  evs.filterMap (fun e => match e with
    | Event.notify t _ => some t
    | _ => none)

/-- The database queries issued during a trace, in order. -/
def queriesOf (evs : List Event) : List String :=
  evs.filterMap (fun e => match e with
    | Event.queryIssued q => some q
    | _ => none)

/-- Whether an event is a connection-release call. -/
def isRelease : Event → Bool
  | Event.release _ => true
  | _ => false

/-- Whether an event is a driver connection attempt (network activity toward
a database server). -/
def isConnectAttempt : Event → Bool
  | Event.driverConnect _ _ => true
  | Event.mongoConnect _ => true
  | _ => false

/-- Whether a settled promise is resolved. -/
def promiseResolved {ε α : Type} : Except ε α → Bool
  | Except.ok _ => true
  | Except.error _ => false

end Backupify

namespace Backupify

/-- An environment in which every external capability succeeds. -/
def envOk : Env :=
  { homeDir := "/home/u", connectError := none, dumpError := none,
    dumpContent := "DUMP", pgQueryError := none, pgRows := ["r1", "r2"],
    mongoError := none, mongoCollections := [], compressError := none }

/-- A mysql request with compression enabled. -/
def reqMysqlCompress : BackupRequest :=
  { db := "mysql", user := "root", password := "pw", host := "localhost",
    port := "3306", dbname := "mydb", «type» := "full", compress := true,
    cloud := false }

/-- A mysql request without compression. -/
def reqMysqlPlain : BackupRequest :=
  { reqMysqlCompress with compress := false }

/-- A mongodb request without compression. -/
def reqMongo : BackupRequest :=
  { db := "mongodb", user := "u", password := "p", host := "h",
    port := "27017", dbname := "shop", «type» := "full", compress := false,
    cloud := false }

/-- An environment in which the mysqldump stage fails. -/
def envDumpFail : Env := { envOk with dumpError := some "dump failed" }

/-- An environment in which the connection handshake fails. -/
def envConnFail : Env :=
  { envOk with connectError := some "connect ECONNREFUSED" }

end Backupify

namespace Backupify

/-- C1: the claim states that every fatal stage error ends the run in Failed,
with a "Backup Failed" notification and never a "Backup Completed" one.  The
code contradicts this for export/compression/upload failures: `createBackup`
catches the error itself (logging message and stack) and resolves, so
`backup` emits "Backup Completed" and never "Backup Failed".  This theorem
evaluates the pipeline at a run whose mysqldump stage throws: the error is
logged with message and stack, yet the notification titles are exactly
Started then Completed. -/
theorem c1_stage_failure_notifies_completed :
    notifTitles (backup reqMysqlPlain envDumpFail []).trace =
      ["Backup Started", "Backup Completed"] ∧
    (backup reqMysqlPlain envDumpFail []).trace.contains
      (Event.logError "Backup failed: dump failed") = true ∧
    (backup reqMysqlPlain envDumpFail []).trace.contains
      (Event.logError (stackOf "dump failed")) = true := by decide

/-- C2: the claim states that a successful compressed run leaves both the raw
artifact and a zip whose single entry is byte-identical to it.  In the code,
`outputFilePath` is already the `.zip` path when `compress` is true: the raw
dump is written to the zip path and then compressed onto itself.  Evaluated
at a successful mysql run with compress = true: no `.sql` (or `.json`) raw
artifact exists, the only file is the zip, and its entry content is the empty
text left by the truncating write stream, not the dump content. -/
theorem c2_compress_produces_no_raw_artifact :
    fsRead (backup reqMysqlCompress envOk []).fs (rawBackupPath envOk "mydb") = none ∧
    fsRead (backup reqMysqlCompress envOk []).fs "/home/u/Downloads/mydb-backup.json" = none ∧
    (backup reqMysqlCompress envOk []).fs =
      [(zipBackupPath envOk "mydb",
        Content.zipEntry (zipBackupPath envOk "mydb") (Content.text ""))] ∧
    Content.text envOk.dumpContent ≠ Content.text "" := by decide

/-- C3: the claim states that the connection release runs exactly once on
every exit path, never crashes, and never masks an earlier error.  Evaluated
at a run whose connection attempt fails: the finally block dereferences the
never-assigned `connection`, so the run is rejected with a TypeError (not the
original connection error), and no release call is ever performed. -/
theorem c3_connect_failure_finally_crashes :
    (backup reqMysqlPlain envConnFail []).outcome =
      Outcome.rejected
        "TypeError: Cannot read properties of undefined (reading \x27end\x27)" ∧
    ((backup reqMysqlPlain envConnFail []).trace.filter isRelease) = [] ∧
    envConnFail.connectError = some "connect ECONNREFUSED" := by decide

/-- C5: the claim states that relational connects forward exactly the
whitelisted parameters host, user, password, database, port.  The config
object `backup` builds uses the key `dbname`, which the whitelist filter
drops, and the `validConfig` object that renames `dbname` to `database` is
never used — so the driver receives only host, user, password and port, and
the session is not bound to the named target database.  This holds for every
request and environment, for both relational kinds. -/
theorem c5_database_param_never_forwarded (req : BackupRequest) (env : Env) :
    (connectToDatabase "mysql" (mkDbConfig req) env).2 =
      [Event.driverConnect "mysql"
        [("host", req.host), ("user", req.user), ("password", req.password),
         ("port", req.port)]] ∧
    (connectToDatabase "postgres" (mkDbConfig req) env).2 =
      [Event.driverConnect "postgres"
        [("host", req.host), ("user", req.user), ("password", req.password),
         ("port", req.port)]] := ⟨rfl, rfl⟩

/-- C9: the `type` field of the request is destructured but never read, so
two runs differing only in the backup-type label have identical outcomes,
traces and filesystem effects, whatever the label values. -/
theorem c9_type_label_inert (req : BackupRequest) (t : String) (env : Env)
    (fs0 : FS) :
    backup { req with «type» := t } env fs0 = backup req env fs0 := rfl

/-- C10: `createBackup` wraps its whole body in a catch handler that only
logs, so the promise it returns is resolved for every input — the caller
cannot distinguish a failed export, compression or upload from a successful
run by `createBackup`'s result. -/
theorem c10_createBackup_always_resolves (dbType : String) (conn : Conn)
    (dbname : String) (compress cloud : Bool) (env : Env) (fs : FS) :
    promiseResolved (createBackup dbType conn dbname compress cloud env fs) = true := by
  unfold createBackup
  cases h : createBackupTry dbType conn dbname compress cloud env fs with
  | ok r => simp [promiseResolved]
  | error r => simp [promiseResolved]

end Backupify

namespace Backupify

/-- A postgres request without compression. -/
def reqPostgres : BackupRequest :=
  { db := "postgres", user := "admin", password := "pw", host := "localhost",
    port := "5432", dbname := "testdb", «type» := "full", compress := false,
    cloud := false }

/-- A request naming an unsupported database kind. -/
def reqSqlite : BackupRequest := { reqMysqlPlain with db := "sqlite" }

/-- Reading back the path just written returns the written content. -/
theorem fsRead_fsWrite_self (fs : FS) (p : String) (c : Content) :
    fsRead (fsWrite fs p c) p = some c := by
  simp [fsRead, fsWrite]

/-- RFC 3986 unreserved characters (the characters percent-encoding leaves
untouched). -/
def isUnreservedChar (c : Char) : Bool :=
  c.isAlphanum || c = '-' || c = '_' || c = '.' || c = '~'

/-- Upper-case hexadecimal digit for a value below 16. -/
def hexDigitChar (n : Nat) : Char :=
  if n < 10 then Char.ofNat (48 + n) else Char.ofNat (55 + n)

/-- Character-list worker for `percentEncode`. -/
def percentEncodeChars : List Char → List Char
  | [] => []
  | c :: cs =>
    if isUnreservedChar c then c :: percentEncodeChars cs
    else
      Char.ofNat 37 :: hexDigitChar (c.toNat / 16) :: hexDigitChar (c.toNat % 16) ::
        percentEncodeChars cs

/-- The percent-encoding the specification requires for credentials embedded
in a connection URI (this definition follows the spec's words, for comparison
with `mongoUri`; the source applies no encoding at all).  ASCII-range
model. -/
def percentEncode (s : String) : String := String.mk (percentEncodeChars s.data)

/-- Whether every character of a string is unreserved. -/
def allUnreserved (s : String) : Bool := s.data.all isUnreservedChar

/-- Percent-encoding is the identity on lists of unreserved characters. -/
theorem percentEncodeChars_unreserved (l : List Char)
    (h : l.all isUnreservedChar = true) : percentEncodeChars l = l := by
  induction l with
  | nil => rfl
  | cons c cs ih =>
    simp only [List.all_cons, Bool.and_eq_true] at h
    simp [percentEncodeChars, h.1, ih h.2]

/-- Percent-encoding is the identity on strings of unreserved characters. -/
theorem percentEncode_unreserved (s : String) (h : allUnreserved s = true) :
    percentEncode s = s := by
  unfold allUnreserved at h
  unfold percentEncode
  rw [percentEncodeChars_unreserved s.data h]

/-- The events `createBackup` emits (its promise is always resolved). -/
def createBackupEvents (dbType : String) (conn : Conn) (dbname : String)
    (compress cloud : Bool) (env : Env) (fs : FS) : List Event :=
  match createBackup dbType conn dbname compress cloud env fs with
  | Except.ok (evs, _) => evs
  | Except.error _ => []

end Backupify

namespace Backupify

/-- C4 counterexample: the claim says the document (mongodb) export artifact
is named with a `.json` extension, but a successful uncompressed mongodb run
writes its JSON payload to `<dbname>-backup.sql` and creates no `.json`
file. -/
theorem c4_mongodb_artifact_not_json :
    fsRead (backup reqMongo envOk []).fs "/home/u/Downloads/shop-backup.json" = none ∧
    fsRead (backup reqMongo envOk []).fs "/home/u/Downloads/shop-backup.sql" =
      some (Content.text "[]") := by decide

/-- C4 amended: for every supported kind, a successful uncompressed run
writes exactly one artifact, named `<dbname>-backup.sql` (the mongodb JSON
export included), and a repeated run against the same database name
overwrites the prior artifact instead of erroring or accumulating a
duplicate. -/
theorem c4_raw_artifact_sql_all_kinds (req : BackupRequest) (env : Env)
    (hdb : req.db = "mysql" ∨ req.db = "postgres" ∨ req.db = "mongodb")
    (hc : req.compress = false)
    (h1 : env.connectError = none) (h2 : env.dumpError = none)
    (h3 : env.pgQueryError = none) (h4 : env.mongoError = none) :
    pathsOf (backup req env []).fs = [rawBackupPath env req.dbname] ∧
    pathsOf (backup req env (backup req env []).fs).fs =
      [rawBackupPath env req.dbname] := by
  rcases hdb with h | h | h <;>
    cases hcl : req.cloud <;>
    simp [backup, connectToDatabase, createBackup, createBackupTry, runFinally,
      mkDbConfig, filteredConfigOf, validMySQLOptions, rawBackupPath,
      downloadsDir, pathsOf, fsWrite, h, hc, hcl, h1, h2, h3, h4]

/-- C4 amended witness: the amended claim evaluated at a concrete mysql
request. -/
theorem c4_raw_artifact_sql_all_kinds_witness :
    (reqMysqlPlain.db = "mysql" ∨ reqMysqlPlain.db = "postgres" ∨
      reqMysqlPlain.db = "mongodb") ∧
    reqMysqlPlain.compress = false ∧
    (pathsOf (backup reqMysqlPlain envOk []).fs =
      [rawBackupPath envOk reqMysqlPlain.dbname] ∧
     pathsOf (backup reqMysqlPlain envOk
        (backup reqMysqlPlain envOk []).fs).fs =
      [rawBackupPath envOk reqMysqlPlain.dbname]) :=
  ⟨Or.inl (by decide), by decide,
   c4_raw_artifact_sql_all_kinds reqMysqlPlain envOk (Or.inl (by decide))
     (by decide) (by decide) (by decide) (by decide) (by decide)⟩

/-- C6: a request whose kind is none of mysql, postgres, mongodb is rejected
inside `connectToDatabase` before any driver is invoked: the run settles with
the unsupported-database error logged and notified, the filesystem untouched,
and the trace contains no connection attempt (no network activity). -/
theorem c6_unsupported_kind_no_connection (req : BackupRequest) (env : Env)
    (fs0 : FS) (h1 : req.db ≠ "mysql") (h2 : req.db ≠ "postgres")
    (h3 : req.db ≠ "mongodb") :
    backup req env fs0 =
      ⟨Outcome.resolved,
       [Event.logError ("Error during backup process: " ++
          ("Unsupported database type: " ++ req.db)),
        Event.notify "Backup Failed"
          ("Backup failed for database " ++ req.dbname ++ ". Error: " ++
            ("Unsupported database type: " ++ req.db))], fs0⟩ ∧
    (backup req env fs0).trace.filter isConnectAttempt = [] := by
  have hmain : backup req env fs0 =
      ⟨Outcome.resolved,
       [Event.logError ("Error during backup process: " ++
          ("Unsupported database type: " ++ req.db)),
        Event.notify "Backup Failed"
          ("Backup failed for database " ++ req.dbname ++ ". Error: " ++
            ("Unsupported database type: " ++ req.db))], fs0⟩ := by
    simp [backup, connectToDatabase, runFinally, mkDbConfig, h1, h2, h3]
  refine ⟨hmain, ?_⟩
  rw [hmain]
  rfl

/-- C6 witness: the theorem applied to a concrete sqlite request. -/
theorem c6_unsupported_kind_no_connection_witness :
    (reqSqlite.db ≠ "mysql" ∧ reqSqlite.db ≠ "postgres" ∧
      reqSqlite.db ≠ "mongodb") ∧
    (backup reqSqlite envOk [] =
      ⟨Outcome.resolved,
       [Event.logError ("Error during backup process: " ++
          ("Unsupported database type: " ++ reqSqlite.db)),
        Event.notify "Backup Failed"
          ("Backup failed for database " ++ reqSqlite.dbname ++ ". Error: " ++
            ("Unsupported database type: " ++ reqSqlite.db))], []⟩ ∧
     (backup reqSqlite envOk []).trace.filter isConnectAttempt = []) :=
  ⟨⟨by decide, by decide, by decide⟩,
   c6_unsupported_kind_no_connection reqSqlite envOk [] (by decide)
     (by decide) (by decide)⟩

/-- C7 counterexample: the claim says the credentials embedded in the mongodb
URI are percent-encoded.  With the password `p@ss` the code interpolates the
raw value, producing a URI with an unencoded reserved character, different
from the percent-encoded form the claim requires. -/
theorem c7_password_not_percent_encoded :
    mongoUri "u" "p@ss" "h" "27017" "d" = "mongodb://u:p@ss@h:27017/d" ∧
    percentEncode "p@ss" = "p%40ss" ∧
    mongoUri "u" "p@ss" "h" "27017" "d" ≠
      "mongodb://" ++ percentEncode "u" ++ ":" ++ percentEncode "p@ss" ++
        "@" ++ "h" ++ ":" ++ "27017" ++ "/" ++ "d" := by decide

/-- C7 amended: the mongodb URI is built by raw interpolation of the
parameters — it coincides with the percent-encoded form exactly when the
user and password consist of unreserved characters — and the database to
export is selected by name at export time (`connection.db(dbname)`), whatever
the connection handle carries. -/
theorem c7_uri_raw_interpolation (user password host port dbname : String)
    (hu : allUnreserved user = true) (hp : allUnreserved password = true) :
    mongoUri user password host port dbname =
      "mongodb://" ++ percentEncode user ++ ":" ++ percentEncode password ++
        "@" ++ host ++ ":" ++ port ++ "/" ++ dbname ∧
    ∀ (conn : Conn) (env : Env) (fs : FS),
      (createBackupEvents "mongodb" conn dbname false false env fs).contains
        (Event.mongoDbSelect dbname) = true := by
  constructor
  · rw [percentEncode_unreserved user hu, percentEncode_unreserved password hp]
    rfl
  · intro conn env fs
    cases henv : env.mongoError <;>
      simp [createBackupEvents, createBackup, createBackupTry, henv]

/-- C7 amended witness: the amended claim evaluated at concrete unreserved
credentials. -/
theorem c7_uri_raw_interpolation_witness :
    (allUnreserved "alice" = true ∧ allUnreserved "pw123" = true) ∧
    (mongoUri "alice" "pw123" "h" "27017" "shop" =
      "mongodb://" ++ percentEncode "alice" ++ ":" ++ percentEncode "pw123" ++
        "@" ++ "h" ++ ":" ++ "27017" ++ "/" ++ "shop" ∧
     ∀ (conn : Conn) (env : Env) (fs : FS),
      (createBackupEvents "mongodb" conn "shop" false false env fs).contains
        (Event.mongoDbSelect "shop") = true) :=
  ⟨⟨by decide, by decide⟩,
   c7_uri_raw_interpolation "alice" "pw123" "h" "27017" "shop" (by decide)
     (by decide)⟩

/-- C8: for the postgres kind (uncompressed, with the handshake and the query
succeeding), the run issues exactly the fixed catalog query over
`pg_catalog.pg_tables` restricted to the public schema, and writes the
returned rows joined by newlines to `<dbname>-backup.sql` — table metadata,
not table contents. -/
theorem c8_postgres_catalog_export (req : BackupRequest) (env : Env) (fs0 : FS)
    (hdb : req.db = "postgres") (hc : req.compress = false)
    (hce : env.connectError = none) (hq : env.pgQueryError = none) :
    queriesOf (backup req env fs0).trace = [catalogQuery] ∧
    fsRead (backup req env fs0).fs (rawBackupPath env req.dbname) =
      some (Content.text (String.intercalate "\n" env.pgRows)) := by
  cases hcl : req.cloud <;>
    simp [backup, connectToDatabase, createBackup, createBackupTry, runFinally,
      mkDbConfig, filteredConfigOf, validMySQLOptions, rawBackupPath,
      downloadsDir, queriesOf, fsRead_fsWrite_self, hdb, hc, hce, hq, hcl]

/-- C8 witness: the theorem applied to a concrete postgres request. -/
theorem c8_postgres_catalog_export_witness :
    (reqPostgres.db = "postgres" ∧ reqPostgres.compress = false ∧
      envOk.connectError = none ∧ envOk.pgQueryError = none) ∧
    (queriesOf (backup reqPostgres envOk []).trace = [catalogQuery] ∧
     fsRead (backup reqPostgres envOk []).fs
        (rawBackupPath envOk reqPostgres.dbname) =
      some (Content.text (String.intercalate "\n" envOk.pgRows))) :=
  ⟨⟨by decide, by decide, by decide, by decide⟩,
   c8_postgres_catalog_export reqPostgres envOk [] (by decide) (by decide)
     (by decide) (by decide)⟩

end Backupify
